import Mathlib

/-!
Shallow embedding of `python/autotune/autotune.py` (ViennaCL/ISAAC autotuner).

The script sweeps operations × devices × precisions (× layouts), dispatching
each combination either to a single-point genetic search (when the config
section has a `size` key) or to a dataset-driven model-training pass.
Stateful control flow is modelled as a trace of observable events paired with
an optional uncaught Python error; pure helpers (the `TYPES` descriptor
table, device/precision resolution) are modelled as Lean functions.
-/

namespace Autotune

/-- Uncaught Python errors that the script can raise. -/
inductive PyErr where
  | keyError (k : String)
  | valueError (s : String)
  | indexError
  | typeError
  | nameError (n : String)
deriving DecidableEq, Repr

/-- OpenCL device-type codes as in `cl.h` (`cl.device_type.*`):
DEFAULT = 1, CPU = 2, GPU = 4, ACCELERATOR = 8, CUSTOM = 16. -/
def device_type_DEFAULT : Nat := 1

def device_type_CPU : Nat := 2

def device_type_GPU : Nat := 4

def device_type_ACCELERATOR : Nat := 8

def device_type_CUSTOM : Nat := 16

/-- A `pyopencl` device handle as used by the script: a name, a platform
name, a device-type code, and the double-precision capability flag
(`device.double_fp_config`, truthy iff nonzero). -/
structure Device where
  name : String
  platform_name : String
  type : Nat
  double_fp_config : Bool
deriving DecidableEq, Repr

/-- A `ConfigObj` value: either a scalar string or a list of strings. -/
inductive ConfVal where
  | str (s : String)
  | list (l : List String)
deriving DecidableEq, Repr

/-- A `ConfigObj` section: ordered key/value pairs. -/
abbrev OpSection := List (String × ConfVal)

/-- Python `k in p` for a section. -/
def secHas (p : OpSection) (k : String) : Bool :=
  p.any (fun kv => kv.1 == k)

/-- Python `p[k]` for a section: `KeyError` when the key is absent. -/
def secGet (p : OpSection) (k : String) : Except PyErr ConfVal :=
  match p.find? (fun kv => kv.1 == k) with
  | some kv => .ok kv.2
  | none => .error (.keyError k)

/-- The parsed configuration file: operation sections plus the optional
top-level `viennacl-src-root` key (line 86 tests `'viennacl-src-root' in config`). -/
structure Config where
  sections : List (String × OpSection)
  viennacl_src_root : Option String
deriving Repr

/-- Lines 45-46: `map_to_list(str, x)` wraps a scalar into a one-element
list; `str` is the identity on the string values `ConfigObj` yields. -/
def map_to_list_str (x : ConfVal) : List String :=
  match x with
  | .str s => [s]
  | .list l => l

/-- Accumulating decimal-digit parser backing `parsePyInt`; `none` when a
non-digit is met or no digit was consumed. -/
def parse_digits : List Char → Option Nat → Option Nat
  | [], acc => acc
  | c :: cs, acc =>
      if c.isDigit then parse_digits cs (some ((acc.getD 0) * 10 + (c.toNat - 48)))
      else none

/-- Python `int(s)` on the strings the script feeds it: an optional leading
minus sign followed by decimal digits; anything else raises `ValueError`. -/
def parsePyInt (s : String) : Except PyErr Int :=
  match s.toList with
  | [] => .error (.valueError s)
  | c :: cs =>
      if c == '-' then
        match parse_digits cs none with
        | some n => .ok (-(n : Int))
        | none => .error (.valueError s)
      else
        match parse_digits (c :: cs) none with
        | some n => .ok ((n : Int))
        | none => .error (.valueError s)

/-- `map_to_list(int, x)` as used on `p['size']` (line 85). -/
def parse_ints : List String → Except PyErr (List Int)
  | [] => .ok []
  | s :: ss =>
      match parsePyInt s with
      | .error e => .error e
      | .ok n =>
          match parse_ints ss with
          | .error e => .error e
          | .ok ns => .ok (n :: ns)

/-- Python list indexing `l[i]` with negative-index wrap-around;
`IndexError` when out of range. -/
def pyIndex (l : List Device) (i : Int) : Except PyErr Device :=
  let j : Int := if i < 0 then i + l.length else i
  if 0 ≤ j ∧ j < (l.length : Int) then
    match l.get? j.toNat with
    | some d => .ok d
    | none => .error .indexError
  else .error .indexError

/-- Line 57, fallback branch: `[all_devices[int(i)] for i in confdevices]`
where `confdevices` is a string, so iteration yields its characters. -/
def index_devices (all_devices : List Device) : List Char → Except PyErr (List Device)
  | [] => .ok []
  | c :: cs =>
      match parsePyInt (String.mk [c]) with
      | .error e => .error e
      | .ok i =>
          match pyIndex all_devices i with
          | .error e => .error e
          | .ok d =>
              match index_devices all_devices cs with
              | .error e => .error e
              | .ok ds => .ok (d :: ds)

/-- Lines 52-56: the `DEVICES_PRESETS` dict built over the enumerated list. -/
def DEVICES_PRESETS (all_devices : List Device) : List (String × List Device) :=
  [("all", all_devices),
   ("gpus", all_devices.filter (fun d => d.type == device_type_GPU)),
   ("cpus", all_devices.filter (fun d => d.type == device_type_CPU)),
   ("accelerators", all_devices.filter (fun d => d.type == device_type_ACCELERATOR))]

/-- Preset lookup; `[]` for a name outside the dict (only queried on hits). -/
def devices_preset (s : String) (all_devices : List Device) : List Device :=
  match (DEVICES_PRESETS all_devices).find? (fun kv => kv.1 == s) with
  | some kv => kv.2
  | none => []

/-- Line 57: `DEVICES_PRESETS[confdevices] if confdevices in DEVICES_PRESETS
else [all_devices[int(i)] for i in confdevices]`.  A list value is unhashable,
so the dict membership test itself raises `TypeError`. -/
def resolveDevices (confdevices : ConfVal) (all_devices : List Device) :
    Except PyErr (List Device) :=
  match confdevices with
  | .list _ => .error .typeError
  | .str s =>
      if (DEVICES_PRESETS all_devices).any (fun kv => kv.1 == s) then
        .ok (devices_preset s all_devices)
      else index_devices all_devices s.toList

/-- The two entries of the `DATATYPES` dict (line 20): `vcl.float32` and
`vcl.float64`, tagged by precision name. -/
inductive Precision where
  | single
  | double
deriving DecidableEq, Repr

/-- `DATATYPES[k]`: `KeyError` for an unrecognized precision name. -/
def lookup_datatypes : List String → Except PyErr (List Precision)
  | [] => .ok []
  | k :: ks =>
      let r : Except PyErr Precision :=
        if k == "single" then .ok .single
        else if k == "double" then .ok .double
        else .error (.keyError k)
      match r with
      | .error e => .error e
      | .ok d =>
          match lookup_datatypes ks with
          | .error e => .error e
          | .ok ds => .ok (d :: ds)

/-- Lines 58-61: precision resolution; the literal `all` expands to
`['single','double']` before the `DATATYPES` lookups. -/
def resolvePrecisions (v : ConfVal) : Except PyErr (List Precision) :=
  let precisions := map_to_list_str v
  let precisions := if precisions.contains "all" then ["single", "double"] else precisions
  lookup_datatypes precisions

/-- `datatype().itemsize`: bytes per element of the numpy dtype. -/
def itemsize : Precision → ℚ
  | .single => 4
  | .double => 8

/-- One entry of the `TYPES` descriptor table (lines 23-41): the kernel
template identity, the performance-index lambda over
`x = [elementSize, sizes, elapsedTime]`, and the unit label. -/
structure OpType where
  template : String
  perf_index : ℚ → List ℚ → ℚ → ℚ
  perf_measure : String

/-- Lines 23-41: the `TYPES` dict.  Each `perf-index` lambda is transcribed
with `x[0] := x0` (element size), `x[1] := x1` (sizes), `x[2] := x2`
(elapsed time); `1e-9` is the exact rational `1/1000000000`. -/
def TYPES : List (String × OpType) :=
  [("vector-axpy",
    ⟨"VectorAxpyTemplate",
     fun x0 x1 x2 => 3 * x0 * (x1.getD 0 0) / x2 * (1 / 1000000000),
     "GB/s"⟩),
   ("matrix-axpy",
    ⟨"MatrixAxpyTemplate",
     fun x0 x1 x2 => 3 * x0 * (x1.getD 0 0) * (x1.getD 1 0) / x2 * (1 / 1000000000),
     "GB/s"⟩),
   ("reduction",
    ⟨"ReductionTemplate",
     fun x0 x1 x2 => 2 * x0 * (x1.getD 0 0) / x2 * (1 / 1000000000),
     "GB/s"⟩),
   ("row-wise-reduction",
    ⟨"RowWiseReductionTemplate",
     fun x0 x1 x2 => x0 * (x1.getD 0 0) * (x1.getD 1 0) / x2 * (1 / 1000000000),
     "GB/s"⟩),
   ("matrix-product",
    ⟨"MatrixProductTemplate",
     fun _ x1 x2 => 2 * (x1.getD 0 0) * (x1.getD 1 0) * (x1.getD 2 0) / x2 * (1 / 1000000000),
     "GFLOP/s"⟩)]

/-- `TYPES[operation]`; the orchestrator only queries the five catalog
names, so the fallback entry is unreachable in every use below. -/
def types_get (operation : String) : OpType :=
  match TYPES.find? (fun kv => kv.1 == operation) with
  | some kv => kv.2
  | none => ⟨"", fun _ _ _ => 0, ""⟩

/-- Observable events of one tuning run, in program order:
`enumerate_devices` is the platform/device discovery sweep of line 51;
`stderr_write` the diagnostic of line 69; `construct_handler` the
definition of one per-layout `execution_handler` closure;
`genetic_search` one single-point search (`execution_handler(sizes)` with
no parameter set, line 85); `update_headers` the call of line 87;
`dataset_tuning` one completed dataset pass (lines 91-92). -/
inductive Event where
  | enumerate_devices : Event
  | stderr_write (msg : String) : Event
  | construct_handler (operation : String) (layout : String) : Event
  | genetic_search (operation : String) (sizes : List Int) (additional : List String) : Event
  | update_headers (root : String) (operation : String) (additional : List String) : Event
  | dataset_tuning (operation : String) (additional : List String) : Event
deriving DecidableEq, Repr

/-- The events a code path emitted, then the uncaught error that aborted it
(if any).  Events preceding the error are kept, matching Python's eager
side effects with exception propagation. -/
abbrev Trace := List Event × Option PyErr

/-- Sequential composition of traces: an uncaught error aborts the rest. -/
def traceSeq : List Trace → Trace
  | [] => ([], none)
  | t :: ts =>
      match t.2 with
      | some e => (t.1, some e)
      | none => (t.1 ++ (traceSeq ts).1, (traceSeq ts).2)

/-- Module-level names the script binds (its imports and top-level
definitions, lines 1-43); `np` is not among them — line 16 imports
`random` from numpy without binding `np`. -/
def module_globals : List String :=
  ["division", "argparse", "itertools", "os", "cl", "vcl", "atd", "tools",
   "optimize", "sys", "ConfigObj", "random", "generate_dataset",
   "train_model", "DATATYPES", "TYPES", "do_tuning"]

/-- Names in scope in `do_tuning` when the shape-sampling lambdas run
(parameters and locals of `do_tuning`, lines 43-148). -/
def do_tuning_scope : List String :=
  ["config_fname", "viennacl_root", "config", "map_to_list", "operation",
   "p", "confdevices", "all_devices", "DEVICES_PRESETS", "devices",
   "precisions", "datatypes", "datatype", "device", "ctx", "execute",
   "tune", "execution_handler", "layouts", "A_trans", "layout"]

/-- Python builtins the module's code refers to; `np` is not a builtin. -/
def builtin_names : List String :=
  ["int", "str", "list", "map", "open", "print", "len", "enumerate",
   "range", "isinstance"]

/-- LEGB name resolution for a name that is free in one of the
shape-sampling lambdas (which bind no names of their own). -/
def name_bound (n : String) : Bool :=
  module_globals.contains n || do_tuning_scope.contains n ||
    builtin_names.contains n

/-- Invoking one of the shape-sampling closures of lines 101/109/117/130/148
(`lambda : 64*np.random.randint(...)`): the first evaluated subterm is the
name `np`; an unbound name raises `NameError`. -/
def invoke_draw : Except PyErr Unit :=
  if name_bound "np" then .ok () else .error (.nameError "np")

/-- Modelled from the spec: `generate_dataset` (imported from the
repository's `dataset` module, which is not under src/) "repeatedly: draws
a random ProblemShape ... invokes the Execution Handler for that shape",
i.e. it invokes the supplied shape sampler once per requested shape
(`shapeCount` = the fourth positional argument, `nDataPoints`).  Only the
first draw matters here: its error propagates. -/
def generate_dataset (draw : Except PyErr Unit) (nTuning nDataPoints : Nat) :
    Except PyErr Unit :=
  if nDataPoints == 0 then .ok ()
  else
    match draw with
    | .error e => .error e
    | .ok _ =>
        let _ := nTuning
        .ok ()

/-- Lines 83-92, the `tune` helper closure.  It captures `config`,
`viennacl_root`, `p`, `operation`, `datatype` and `device` from
`do_tuning`; `viennacl_root` is in scope but never read — the single-point
branch persists through `config['viennacl-src-root']` alone. -/
def tune (config : Config) (viennacl_root : String) (p : OpSection)
    (operation : String) (nTuning nDataPoints : Nat)
    (draw : Except PyErr Unit) (additional_parameters : List String) : Trace :=
  let _ := viennacl_root
  if secHas p "size" then
    match secGet p "size" with
    | .error e => ([], some e)
    | .ok sv =>
        match parse_ints (map_to_list_str sv) with
        | .error e => ([], some e)
        | .ok sizes =>
            let evs := [Event.genetic_search operation sizes additional_parameters]
            match config.viennacl_src_root with
            | some root =>
                (evs ++ [Event.update_headers root operation additional_parameters], none)
            | none => (evs, none)
  else
    match generate_dataset draw nTuning nDataPoints with
    | .error e => ([], some e)
    | .ok _ => ([Event.dataset_tuning operation additional_parameters], none)

/-- Python `s[i]` on a string: one-character string, or `IndexError`. -/
def str_index (s : String) (i : Nat) : Except PyErr String :=
  match s.toList.get? i with
  | some c => .ok (String.mk [c])
  | none => .error .indexError

/-- Lines 121-122: `layout = all` for row-wise-reduction. -/
def rwr_layouts (lv : ConfVal) : List String :=
  let layouts := map_to_list_str lv
  if layouts.contains "all" then ["N", "T"] else layouts

/-- Lines 134-135: `layout = all` for matrix-product. -/
def mp_layouts (lv : ConfVal) : List String :=
  let layouts := map_to_list_str lv
  if layouts.contains "all" then ["NN", "NT", "TN", "TT"] else layouts

/-- The per-layout loops of lines 123-130 and 136-148: a Python `for` whose
body may raise. -/
def layout_loop (f : String → Trace) : List String → Trace
  | [] => ([], none)
  | l :: ls =>
      match (f l).2 with
      | some e => ((f l).1, some e)
      | none => ((f l).1 ++ (layout_loop f ls).1, (layout_loop f ls).2)

/-- Lines 124-130: the loop body for one row-wise-reduction layout — define
one `execution_handler` closure, then call `tune` with `(A_trans,)`. -/
def rwr_pass (config : Config) (viennacl_root : String) (p : OpSection) :
    String → Trace :=
  fun A_trans =>
    let t := tune config viennacl_root p "row-wise-reduction" 50 1000 invoke_draw [A_trans]
    (Event.construct_handler "row-wise-reduction" A_trans :: t.1, t.2)

/-- Lines 137-148: the loop body for one matrix-product layout code — define
one `execution_handler` closure, then evaluate `(layout[0], layout[1])`
(possibly raising `IndexError`) and call `tune`. -/
def mp_pass (config : Config) (viennacl_root : String) (p : OpSection) :
    String → Trace :=
  fun layout =>
    match str_index layout 0, str_index layout 1 with
    | .ok a, .ok b =>
        let t := tune config viennacl_root p "matrix-product" 50 2000 invoke_draw [a, b]
        (Event.construct_handler "matrix-product" layout :: t.1, t.2)
    | .error e, _ => ([Event.construct_handler "matrix-product" layout], some e)
    | .ok _, .error e => ([Event.construct_handler "matrix-product" layout], some e)

/-- Lines 94-148: the per-(datatype, device) operation body after the
capability check.  For each layout it defines one `execution_handler`
closure and calls `tune`; for matrix-product the tune-call arguments
`(layout[0], layout[1])` are evaluated after the handler definition. -/
def tuning_body (config : Config) (viennacl_root : String) (p : OpSection)
    (operation : String) : Trace :=
  if operation == "vector-axpy" then
    let t := tune config viennacl_root p operation 30 1000 invoke_draw []
    (Event.construct_handler operation "" :: t.1, t.2)
  else if operation == "reduction" then
    let t := tune config viennacl_root p operation 50 1000 invoke_draw []
    (Event.construct_handler operation "" :: t.1, t.2)
  else if operation == "matrix-axpy" then
    let t := tune config viennacl_root p operation 50 1000 invoke_draw []
    (Event.construct_handler operation "" :: t.1, t.2)
  else if operation == "row-wise-reduction" then
    match secGet p "layout" with
    | .error e => ([], some e)
    | .ok lv => layout_loop (rwr_pass config viennacl_root p) (rwr_layouts lv)
  else if operation == "matrix-product" then
    match secGet p "layout" with
    | .error e => ([], some e)
    | .ok lv => layout_loop (mp_pass config viennacl_root p) (mp_layouts lv)
  else ([], none)

/-- `datatype is vcl.float64` (line 68). -/
def is_float64 : Precision → Bool
  | .double => true
  | .single => false

/-- Lines 63-148, the body of the `itertools.product` loop for one
(datatype, device) pair: the capability check (lines 68-70) either skips
with a stderr diagnostic, or the operation body runs. -/
def combination_pass (config : Config) (viennacl_root : String) (p : OpSection)
    (operation : String) (datatype : Precision) (device : Device) : Trace :=
  if is_float64 datatype && !device.double_fp_config then
    ([Event.stderr_write ("Warning : The device " ++ device.name ++
        " does not support double precision! Skipping ...")], none)
  else tuning_body config viennacl_root p operation

/-- Lines 48-148, one iteration of the operation loop.  `all_devices` is
what each evaluation of line 51's enumeration yields (the environment's
device list, identical at every call); the `enumerate_devices` event marks
each evaluation of that line. -/
def operation_block (all_devices : List Device) (config : Config)
    (viennacl_root : String) (operation : String) : Trace :=
  match config.sections.find? (fun kv => kv.1 == operation) with
  | none => ([], none)
  | some kv =>
      let p := kv.2
      match secGet p "devices" with
      | .error e => ([], some e)
      | .ok confdevices =>
          match resolveDevices confdevices all_devices with
          | .error e => ([Event.enumerate_devices], some e)
          | .ok devices =>
              match secGet p "precision" with
              | .error e => ([Event.enumerate_devices], some e)
              | .ok pv =>
                  match resolvePrecisions pv with
                  | .error e => ([Event.enumerate_devices], some e)
                  | .ok datatypes =>
                      let pairs := datatypes.flatMap (fun dt => devices.map (fun d => (dt, d)))
                      let inner := traceSeq (pairs.map (fun pr =>
                          combination_pass config viennacl_root p operation pr.1 pr.2))
                      (Event.enumerate_devices :: inner.1, inner.2)

/-- Line 47: the fixed operation catalog the orchestrator iterates. -/
def OPERATIONS : List String :=
  ["vector-axpy", "matrix-axpy", "reduction", "row-wise-reduction", "matrix-product"]

/-- Lines 43-148: `do_tuning(config_fname, viennacl_root)` after the config
file has been parsed into `config`. -/
def do_tuning (all_devices : List Device) (config : Config)
    (viennacl_root : String) : Trace :=
  traceSeq (OPERATIONS.map (operation_block all_devices config viennacl_root))

/-- Recognizer for the discovery event, for counting enumeration calls. -/
def is_enumeration : Event → Bool
  | .enumerate_devices => true
  | _ => false

/-- Number of platform/device discovery sweeps a trace performed. -/
def count_enumerations (evs : List Event) : Nat :=
  evs.countP is_enumeration

/-- Recognizer for the single-point outcome (a converged parameter set). -/
def is_single_point_outcome : Event → Bool
  | .genetic_search _ _ _ => true
  | _ => false

/-- Recognizer for the dataset outcome (a trained model). -/
def is_dataset_outcome : Event → Bool
  | .dataset_tuning _ _ => true
  | _ => false

/-- The `additional_parameters` a tuning-outcome event was produced for. -/
def outcome_additional : Event → Option (List String)
  | .genetic_search _ _ add => some add
  | .dataset_tuning _ add => some add
  | _ => none

/-- The layout codes for which a trace defined an `execution_handler`. -/
def handled_layouts (evs : List Event) : List String :=
  evs.filterMap (fun e =>
    match e with
    | .construct_handler _ l => some l
    | _ => none)

/-- `(layout[0], layout[1])` as the tune-call additional parameters. -/
def layout_chars (code : String) : List String :=
  code.toList.map (fun c => String.mk [c])

/-- A character of a `devices` string that line 57 can resolve: a decimal
digit denoting a position inside the enumerated device list. -/
def valid_index_char (all_devices : List Device) (c : Char) : Bool :=
  c.isDigit && decide ((c.toNat - 48) < all_devices.length)

/-- Fixture: a GPU device with double-precision support. -/
def demo_gpu : Device := ⟨"gpu0", "plat", device_type_GPU, true⟩

/-- Fixture: a CPU device without double-precision support. -/
def demo_cpu_nodouble : Device := ⟨"stub", "plat", device_type_CPU, false⟩

/-- Fixture: a device of OpenCL type CUSTOM (neither GPU, CPU nor
accelerator). -/
def demo_custom : Device := ⟨"fpga0", "plat", device_type_CUSTOM, true⟩

/-- Fixture: a single-point vector-axpy section (`size` present). -/
def sec_single_point : OpSection :=
  [("devices", .str "0"), ("precision", .str "single"), ("size", .str "1024")]

/-- Fixture: a config with one operation and a config-file
`viennacl-src-root` of `/cfg/path`. -/
def cfg_single_point : Config :=
  ⟨[("vector-axpy", sec_single_point)], some "/cfg/path"⟩

/-- Fixture: a config with two configured operations. -/
def cfg_two_ops : Config :=
  ⟨[("vector-axpy", sec_single_point), ("reduction", sec_single_point)], none⟩

/-- Fixture: a section whose `devices` value is the empty string. -/
def sec_empty_devices : OpSection :=
  [("devices", .str ""), ("precision", .str "single"), ("size", .str "64")]

/-- Fixture: a config whose only section has the empty `devices` string. -/
def cfg_empty_devices : Config := ⟨[("vector-axpy", sec_empty_devices)], none⟩

/-- Fixture: a dataset-mode section (no `size` key, no `layout` key). -/
def sec_no_size : OpSection :=
  [("devices", .str "0"), ("precision", .str "single")]

/-- Fixture: a single-point matrix-product section with `layout = all`. -/
def sec_mp_all : OpSection :=
  [("devices", .str "0"), ("precision", .str "single"),
   ("size", .list ["128", "128", "128"]), ("layout", .str "all")]

/-- Fixture: a config holding only the matrix-product section above. -/
def cfg_mp_all : Config := ⟨[("matrix-product", sec_mp_all)], none⟩

/-! ### Helper lemmas -/

/-- A key absent from a section makes `secGet` raise `KeyError`. -/
lemma secGet_of_not_has (p : OpSection) (k : String) (h : secHas p k = false) :
    secGet p k = .error (.keyError k) := by
  unfold secGet
  have hfind : p.find? (fun kv => kv.1 == k) = none := by
    rw [List.find?_eq_none]
    intro x hx hbeq
    have : secHas p k = true := by
      unfold secHas
      exact List.any_eq_true.mpr ⟨x, hx, hbeq⟩
    rw [this] at h
    cases h
  rw [hfind]

/-- Every completed `tune` call has one of three trace shapes: a bare
single-point search, a single-point search followed by a header update, or
one dataset pass; errors leave an empty trace. -/
lemma tune_trace_shape (config : Config) (viennacl_root : String) (p : OpSection)
    (operation : String) (nT nD : Nat) (draw : Except PyErr Unit) (add : List String) :
    (∃ e, tune config viennacl_root p operation nT nD draw add = ([], some e)) ∨
    (secHas p "size" = true ∧
      ((∃ sizes, tune config viennacl_root p operation nT nD draw add =
          ([Event.genetic_search operation sizes add], none)) ∨
       (∃ sizes root, tune config viennacl_root p operation nT nD draw add =
          ([Event.genetic_search operation sizes add,
            Event.update_headers root operation add], none)))) ∨
    (secHas p "size" = false ∧
      tune config viennacl_root p operation nT nD draw add =
        ([Event.dataset_tuning operation add], none)) := by
  cases hs : secHas p "size" with
  | true =>
      cases hsg : secGet p "size" with
      | error e => exact Or.inl ⟨e, by simp [tune, hs, hsg]⟩
      | ok sv =>
          cases hpi : parse_ints (map_to_list_str sv) with
          | error e => exact Or.inl ⟨e, by simp [tune, hs, hsg, hpi]⟩
          | ok sizes =>
              cases hr : config.viennacl_src_root with
              | none =>
                  exact Or.inr (Or.inl ⟨rfl, Or.inl ⟨sizes, by simp [tune, hs, hsg, hpi, hr]⟩⟩)
              | some root =>
                  exact Or.inr (Or.inl ⟨rfl, Or.inr ⟨sizes, root, by simp [tune, hs, hsg, hpi, hr]⟩⟩)
  | false =>
      cases hg : generate_dataset draw nT nD with
      | error e => exact Or.inl ⟨e, by simp [tune, hs, hg]⟩
      | ok u => exact Or.inr (Or.inr ⟨rfl, by simp [tune, hs, hg]⟩)

/-! ### C1 — matrix-product performance index -/

/-- C1 counterexample: the matrix-product performance index at element size
4 bytes, shape (128,128,128), elapsed time 1.0 does NOT equal
`2*128*128*128*4 / 1e9` — the code's lambda (line 40) never reads the
element size `x[0]`. -/
theorem matrix_product_perf_index_no_element_size :
    (types_get "matrix-product").perf_index 4 [128, 128, 128] 1 ≠
      2 * 128 * 128 * 128 * 4 / 1000000000 := by
  show (2 * (128 : ℚ) * 128 * 128 / 1 * (1 / 1000000000)) ≠
    2 * 128 * 128 * 128 * 4 / 1000000000
  norm_num

/-- C1 (amended): the matrix-product performance index at element size 4,
shape (128,128,128) and elapsed time 1.0 is exactly `2*128*128*128 / 1e9`
(the element size does not enter the GEMM flop count), and the
performance-unit label is `GFLOP/s`. -/
theorem matrix_product_perf_index_128_cube :
    (types_get "matrix-product").perf_index 4 [128, 128, 128] 1 =
      2 * 128 * 128 * 128 / 1000000000 ∧
    (types_get "matrix-product").perf_measure = "GFLOP/s" := by
  constructor
  · show (2 * (128 : ℚ) * 128 * 128 / 1 * (1 / 1000000000)) =
      2 * 128 * 128 * 128 / 1000000000
    norm_num
  · rfl

/-! ### C2 — the `--viennacl-root` flag is dead -/

/-- C2: a run given `--viennacl-root /cli/path` on a config whose file sets
`viennacl-src-root = /cfg/path` forwards the single-point result to the
config-file path, and the whole run is invariant in the command-line value:
`do_tuning` receives `viennacl_root` (line 173) but never reads it — line 87
uses `config['viennacl-src-root']` alone, so the flag does not override. -/
theorem viennacl_root_flag_has_no_effect :
    (do_tuning [demo_gpu] cfg_single_point "/cli/path").1 =
      [Event.enumerate_devices,
       Event.construct_handler "vector-axpy" "",
       Event.genetic_search "vector-axpy" [1024] [],
       Event.update_headers "/cfg/path" "vector-axpy" []] ∧
    ∀ root : String,
      do_tuning [demo_gpu] cfg_single_point root =
        do_tuning [demo_gpu] cfg_single_point "/cli/path" := by
  exact ⟨rfl, fun root => rfl⟩

/-! ### C4 — capability-mismatch skip -/

/-- C4: for any combination pairing double precision with a device whose
double-precision capability flag is false, the pass emits exactly the
stderr diagnostic of line 69 and nothing else — no handler is constructed,
no execution is attempted, no error is raised, so the sweep continues. -/
theorem double_precision_unsupported_skips (config : Config)
    (viennacl_root : String) (p : OpSection) (operation : String)
    (device : Device) (h : device.double_fp_config = false) :
    combination_pass config viennacl_root p operation Precision.double device =
      ([Event.stderr_write ("Warning : The device " ++ device.name ++
          " does not support double precision! Skipping ...")], none) := by
  unfold combination_pass
  rw [h]
  rfl

/-- Witness for C4 at a stub device with `double_fp_config = false`. -/
theorem double_precision_unsupported_skips_witness :
    combination_pass cfg_single_point "" sec_single_point "vector-axpy"
        Precision.double demo_cpu_nodouble =
      ([Event.stderr_write
          "Warning : The device stub does not support double precision! Skipping ..."],
       none) :=
  double_precision_unsupported_skips cfg_single_point "" sec_single_point
    "vector-axpy" demo_cpu_nodouble rfl

/-! ### C10 — missing `layout` key -/

/-- C10: reaching a row-wise-reduction or matrix-product combination whose
section lacks the `layout` key raises an uncaught `KeyError` at line 120 or
133, with an empty event list — in particular before any execution handler
is constructed. -/
theorem missing_layout_key_raises_key_error (config : Config)
    (viennacl_root : String) (p : OpSection) (operation : String)
    (hop : operation = "row-wise-reduction" ∨ operation = "matrix-product")
    (h : secHas p "layout" = false) :
    tuning_body config viennacl_root p operation =
      ([], some (.keyError "layout")) := by
  rcases hop with rfl | rfl
  · show (match secGet p "layout" with
      | .error e => (([] : List Event), some e)
      | .ok lv =>
          layout_loop (rwr_pass config viennacl_root p) (rwr_layouts lv)) =
        ([], some (.keyError "layout"))
    rw [secGet_of_not_has p "layout" h]
  · show (match secGet p "layout" with
      | .error e => (([] : List Event), some e)
      | .ok lv =>
          layout_loop (mp_pass config viennacl_root p) (mp_layouts lv)) =
        ([], some (.keyError "layout"))
    rw [secGet_of_not_has p "layout" h]

/-- Witness for C10 at a concrete section without a `layout` key. -/
theorem missing_layout_key_raises_key_error_witness :
    tuning_body cfg_single_point "" sec_no_size "matrix-product" =
      ([], some (.keyError "layout")) :=
  missing_layout_key_raises_key_error cfg_single_point "" sec_no_size
    "matrix-product" (Or.inr rfl) rfl

/-! ### C9 — the `np` NameError in dataset mode -/

/-- C9: the name `np` is unbound in the module (line 16 imports only
`random` from numpy), so invoking any shape-sampling closure raises
`NameError`, and every dataset-mode `tune` call (no `size` key, a nonzero
shape count) aborts with that uncaught error before producing anything. -/
theorem dataset_draw_raises_name_error_np (config : Config)
    (viennacl_root : String) (p : OpSection) (operation : String)
    (add : List String) (nT nD : Nat)
    (hsize : secHas p "size" = false) (hnD : nD ≠ 0) :
    name_bound "np" = false ∧
    tune config viennacl_root p operation nT nD invoke_draw add =
      ([], some (.nameError "np")) := by
  refine ⟨rfl, ?_⟩
  have hid : invoke_draw = Except.error (PyErr.nameError "np") := rfl
  have hg : generate_dataset invoke_draw nT nD = .error (.nameError "np") := by
    unfold generate_dataset
    rw [hid]
    have hb : (nD == 0) = false := by
      cases nD with
      | zero => exact absurd rfl hnD
      | succ m => rfl
    rw [hb]
    rfl
  simp [tune, hsize, hg]

/-- Witness for C9 at a concrete dataset-mode section. -/
theorem dataset_draw_raises_name_error_np_witness :
    name_bound "np" = false ∧
    tune cfg_single_point "" sec_no_size "vector-axpy" 30 1000 invoke_draw [] =
      ([], some (.nameError "np")) :=
  dataset_draw_raises_name_error_np cfg_single_point "" sec_no_size
    "vector-axpy" [] 30 1000 rfl (by decide)

/-! ### C6 — the `all` preset versus the three type filters -/

/-- C6 counterexample: over a device list holding one device of OpenCL type
CUSTOM, the `all` preset contains the device while the union of the
`gpus`, `cpus` and `accelerators` filter results does not. -/
theorem preset_all_exceeds_type_filter_union :
    demo_custom ∈ devices_preset "all" [demo_custom] ∧
    demo_custom ∉
      devices_preset "gpus" [demo_custom] ++ devices_preset "cpus" [demo_custom] ++
        devices_preset "accelerators" [demo_custom] := by
  decide

/-! ### C8 counterexample — empty devices string resolves without error -/

/-- C8 counterexample: the `devices` value `""` is neither a preset name
nor a valid device index, yet line 57 resolves it to the empty device list
and the whole run terminates without any uncaught error. -/
theorem empty_devices_value_resolves_without_error :
    resolveDevices (.str "") [demo_gpu] = .ok [] ∧
    (do_tuning [demo_gpu] cfg_empty_devices "").2 = none := by
  exact ⟨rfl, rfl⟩

/-! ### C3 — single-point mode iff `size` key -/

/-- C3: every completed per-combination `tune` dispatch produces exactly one
tuning outcome — a single-point search result exactly when the section has a
`size` key, a dataset-trained model exactly when it does not — and no call
ever produces both. -/
theorem tune_branch_single_point_iff_size_key (config : Config)
    (viennacl_root : String) (p : OpSection) (operation : String)
    (nT nD : Nat) (draw : Except PyErr Unit) (add : List String) :
    (tune config viennacl_root p operation nT nD draw add).1.countP is_single_point_outcome +
      (tune config viennacl_root p operation nT nD draw add).1.countP is_dataset_outcome ≤ 1 ∧
    ((tune config viennacl_root p operation nT nD draw add).2 = none →
      (tune config viennacl_root p operation nT nD draw add).1.countP is_single_point_outcome =
        (if secHas p "size" then 1 else 0) ∧
      (tune config viennacl_root p operation nT nD draw add).1.countP is_dataset_outcome =
        (if secHas p "size" then 0 else 1)) := by
  rcases tune_trace_shape config viennacl_root p operation nT nD draw add with
    ⟨e, heq⟩ | ⟨hs, ⟨sizes, heq⟩ | ⟨sizes, root, heq⟩⟩ | ⟨hs, heq⟩
  · rw [heq]
    simp [is_single_point_outcome, is_dataset_outcome,
      List.countP_cons, List.countP_nil]
  · rw [heq]
    simp [hs, is_single_point_outcome, is_dataset_outcome,
      List.countP_cons, List.countP_nil]
  · rw [heq]
    simp [hs, is_single_point_outcome, is_dataset_outcome,
      List.countP_cons, List.countP_nil]
  · rw [heq]
    simp [hs, is_single_point_outcome, is_dataset_outcome,
      List.countP_cons, List.countP_nil]

/-- Witness for C3 at a concrete single-point section. -/
theorem tune_branch_single_point_iff_size_key_witness :
    (tune cfg_single_point "" sec_single_point "vector-axpy" 30 1000
        (Except.ok ()) []).1.countP is_single_point_outcome = 1 :=
  (((tune_branch_single_point_iff_size_key cfg_single_point "" sec_single_point
      "vector-axpy" 30 1000 (Except.ok ()) []).2 rfl).1).trans rfl

/-! ### C6 amended — partition over the three standard device types -/

/-- C6 (amended): over any enumerated list whose devices all have one of
the three filtered OpenCL types (GPU, CPU, ACCELERATOR), the `all` preset
resolves to exactly the union of the `gpus`, `cpus` and `accelerators`
preset results; devices of other types (DEFAULT, CUSTOM) break the
partition, as the counterexample shows. -/
theorem preset_all_union_over_standard_types (ds : List Device)
    (h : ∀ d ∈ ds, d.type = device_type_GPU ∨ d.type = device_type_CPU ∨
        d.type = device_type_ACCELERATOR) :
    ∀ d, d ∈ devices_preset "all" ds ↔
      d ∈ devices_preset "gpus" ds ∨ d ∈ devices_preset "cpus" ds ∨
        d ∈ devices_preset "accelerators" ds := by
  intro d
  have hall : devices_preset "all" ds = ds := rfl
  have hg : devices_preset "gpus" ds =
      ds.filter (fun x => x.type == device_type_GPU) := rfl
  have hc : devices_preset "cpus" ds =
      ds.filter (fun x => x.type == device_type_CPU) := rfl
  have ha : devices_preset "accelerators" ds =
      ds.filter (fun x => x.type == device_type_ACCELERATOR) := rfl
  rw [hall, hg, hc, ha]
  simp only [List.mem_filter]
  constructor
  · intro hd
    rcases h d hd with ht | ht | ht
    · exact Or.inl ⟨hd, by simp [ht]⟩
    · exact Or.inr (Or.inl ⟨hd, by simp [ht]⟩)
    · exact Or.inr (Or.inr ⟨hd, by simp [ht]⟩)
  · rintro (⟨hd, _⟩ | ⟨hd, _⟩ | ⟨hd, _⟩) <;> exact hd

/-- Witness for C6 (amended) over a one-GPU device list. -/
theorem preset_all_union_over_standard_types_witness :
    demo_gpu ∈ devices_preset "all" [demo_gpu] ↔
      demo_gpu ∈ devices_preset "gpus" [demo_gpu] ∨
        demo_gpu ∈ devices_preset "cpus" [demo_gpu] ∨
          demo_gpu ∈ devices_preset "accelerators" [demo_gpu] :=
  preset_all_union_over_standard_types [demo_gpu] (by decide) demo_gpu

/-! ### C8 amended — invalid devices or precision values raise -/

/-- A digit character within range parses and indexes successfully. -/
lemma parse_single_digit (c : Char) (h : c.isDigit = true) :
    parsePyInt (String.mk [c]) = .ok ((c.toNat - 48 : Nat) : Int) := by
  have hne : (c == '-') = false := by
    cases hc : c == '-'
    · rfl
    · have hcd : c = '-' := beq_iff_eq.mp hc
      subst hcd
      exact absurd h (by decide)
  have ht : (String.mk [c]).toList = [c] := rfl
  simp [parsePyInt, ht, hne, parse_digits, h]

/-- A non-digit character makes `int(...)` raise `ValueError`. -/
lemma parse_single_nondigit (c : Char) (h : c.isDigit = false) :
    parsePyInt (String.mk [c]) = .error (.valueError (String.mk [c])) := by
  have ht : (String.mk [c]).toList = [c] := rfl
  by_cases hc : (c == '-') = true
  · simp [parsePyInt, ht, hc, parse_digits]
  · have hc2 : (c == '-') = false := by
      revert hc
      cases c == '-' <;> simp
    simp [parsePyInt, ht, hc2, parse_digits, h]

/-- An in-range nonnegative index succeeds. -/
lemma pyIndex_ok_of_lt (l : List Device) (n : Nat) (h : n < l.length) :
    ∃ d, pyIndex l (n : Int) = .ok d := by
  have hj : ¬((n : Int) < 0) := by omega
  have hcond : (0 : Int) ≤ (n : Int) ∧ (n : Int) < (l.length : Int) := by
    constructor <;> omega
  have hn : ((n : Int)).toNat = n := by omega
  cases hq : l[n]? with
  | none =>
      rw [List.getElem?_eq_none_iff] at hq
      omega
  | some d => exact ⟨d, by simp [pyIndex, hj, hcond, hn, hq]⟩

/-- An out-of-range nonnegative index raises `IndexError`. -/
lemma pyIndex_error_of_ge (l : List Device) (n : Nat) (h : l.length ≤ n) :
    pyIndex l (n : Int) = .error .indexError := by
  have hj : ¬((n : Int) < 0) := by omega
  have hcond : ¬((0 : Int) ≤ (n : Int) ∧ (n : Int) < (l.length : Int)) := by
    intro hcc
    omega
  simp [pyIndex, hj, hcond]
  intro hlt
  exact absurd hlt (by omega)

/-- A devices string containing any character that is not a digit denoting
a position inside the enumerated list makes line 57's comprehension raise. -/
lemma index_devices_has_error (all_devices : List Device) (cs : List Char)
    (h : ∃ c ∈ cs, valid_index_char all_devices c = false) :
    ∃ e, index_devices all_devices cs = .error e := by
  induction cs with
  | nil => simp at h
  | cons c cs ih =>
      by_cases hv : valid_index_char all_devices c = true
      · unfold valid_index_char at hv
        rw [Bool.and_eq_true] at hv
        have hd : c.isDigit = true := hv.1
        have hlt : (c.toNat - 48) < all_devices.length := of_decide_eq_true hv.2
        have htail : ∃ x ∈ cs, valid_index_char all_devices x = false := by
          rcases h with ⟨x, hx, hxf⟩
          rcases List.mem_cons.mp hx with rfl | hx2
          · have hvt : valid_index_char all_devices x = true := by
              unfold valid_index_char
              rw [hd, decide_eq_true hlt]
              rfl
            rw [hvt] at hxf
            cases hxf
          · exact ⟨x, hx2, hxf⟩
        obtain ⟨e, he⟩ := ih htail
        obtain ⟨d, hdix⟩ := pyIndex_ok_of_lt all_devices (c.toNat - 48) hlt
        exact ⟨e, by simp [index_devices, parse_single_digit c hd, hdix, he]⟩
      · have hv2 : valid_index_char all_devices c = false := by
          revert hv
          cases valid_index_char all_devices c <;> simp
        cases hdig : c.isDigit
        · exact ⟨.valueError (String.mk [c]),
            by simp [index_devices, parse_single_nondigit c hdig]⟩
        · have hge : all_devices.length ≤ c.toNat - 48 := by
            unfold valid_index_char at hv2
            rw [hdig] at hv2
            simp at hv2
            omega
          exact ⟨.indexError,
            by simp [index_devices, parse_single_digit c hdig,
              pyIndex_error_of_ge all_devices _ hge]⟩

/-- C8 (amended): a `devices` string that is not a preset name and has a
character that is not a valid device index raises an uncaught error (the
empty string instead resolves to an empty device list, per the
counterexample); an unrecognized precision name raises `KeyError`; and an
operation section carrying such a devices value aborts its block with an
uncaught error. -/
theorem invalid_devices_or_precision_error (all_devices : List Device)
    (s kprec : String)
    (hpre : s ∉ (["all", "gpus", "cpus", "accelerators"] : List String))
    (hbad : ∃ c ∈ s.toList, valid_index_char all_devices c = false)
    (hk1 : kprec ≠ "all") (hk2 : kprec ≠ "single") (hk3 : kprec ≠ "double") :
    (∃ e, resolveDevices (.str s) all_devices = .error e) ∧
    resolvePrecisions (.str kprec) = .error (.keyError kprec) ∧
    ∀ (config : Config) (viennacl_root operation : String) (kv : String × OpSection),
      config.sections.find? (fun x => x.1 == operation) = some kv →
      secGet kv.2 "devices" = .ok (.str s) →
      ∃ e, (operation_block all_devices config viennacl_root operation).2 = some e := by
  have hany : ((DEVICES_PRESETS all_devices).any (fun kv => kv.1 == s)) = false := by
    rw [Bool.eq_false_iff]
    intro hc
    obtain ⟨kv, hmem, hbeq⟩ := List.any_eq_true.mp hc
    have hkv : kv.1 = s := beq_iff_eq.mp hbeq
    apply hpre
    rw [← hkv]
    simp only [DEVICES_PRESETS, List.mem_cons, List.not_mem_nil, or_false] at hmem
    rcases hmem with rfl | rfl | rfl | rfl <;> simp
  have hres : ∃ e, resolveDevices (.str s) all_devices = .error e := by
    obtain ⟨e, he⟩ := index_devices_has_error all_devices s.toList hbad
    refine ⟨e, ?_⟩
    simp only [resolveDevices, hany, Bool.false_eq_true, if_false]
    exact he
  have hprec : resolvePrecisions (.str kprec) = .error (.keyError kprec) := by
    have hne : ¬ ("all" : String) = kprec := fun hq => hk1 hq.symm
    have hs1 : (kprec == "single") = false := by
      cases hq : kprec == "single"
      · rfl
      · exact absurd (beq_iff_eq.mp hq) hk2
    have hs2 : (kprec == "double") = false := by
      cases hq : kprec == "double"
      · rfl
      · exact absurd (beq_iff_eq.mp hq) hk3
    simp [resolvePrecisions, map_to_list_str, hne, lookup_datatypes, hs1, hs2]
  refine ⟨hres, hprec, ?_⟩
  intro config viennacl_root operation kv hfind hdev
  obtain ⟨e, he⟩ := hres
  exact ⟨e, by simp [operation_block, hfind, hdev, he]⟩

/-- Witness for C8 (amended) at `devices = "x"`, `precision = "half"`. -/
theorem invalid_devices_or_precision_error_witness :
    (∃ e, resolveDevices (.str "x") [demo_gpu] = .error e) ∧
    resolvePrecisions (.str "half") = .error (.keyError "half") := by
  have h := invalid_devices_or_precision_error [demo_gpu] "x" "half"
    (by decide) (by decide) (by decide) (by decide) (by decide)
  exact ⟨h.1, h.2.1⟩

/-! ### C5 — enumeration happens once per configured operation -/

/-- A component error ends a trace sequence at that component. -/
lemma traceSeq_cons_some (t : Trace) (ts : List Trace) (e : PyErr)
    (h : t.2 = some e) : traceSeq (t :: ts) = (t.1, some e) := by
  simp [traceSeq, h]

/-- A clean component lets the trace sequence continue. -/
lemma traceSeq_cons_none (t : Trace) (ts : List Trace) (h : t.2 = none) :
    traceSeq (t :: ts) = (t.1 ++ (traceSeq ts).1, (traceSeq ts).2) := by
  simp [traceSeq, h]

/-- A completed trace sequence has no error in any component. -/
lemma traceSeq_snd_none (ts : List Trace) (h : (traceSeq ts).2 = none) :
    ∀ t ∈ ts, t.2 = none := by
  induction ts with
  | nil => simp
  | cons t ts ih =>
      cases ht : t.2 with
      | some e =>
          rw [traceSeq_cons_some t ts e ht] at h
          cases h
      | none =>
          rw [traceSeq_cons_none t ts ht] at h
          intro x hx
          rcases List.mem_cons.mp hx with rfl | hx2
          · exact ht
          · exact ih h x hx2

/-- Event counts over a completed trace sequence add up componentwise. -/
lemma traceSeq_countP (q : Event → Bool) (ts : List Trace)
    (h : ∀ t ∈ ts, t.2 = none) :
    (traceSeq ts).1.countP q = (ts.map (fun t => t.1.countP q)).sum := by
  induction ts with
  | nil => simp [traceSeq]
  | cons t ts ih =>
      have ht : t.2 = none := h t (by simp)
      rw [traceSeq_cons_none t ts ht, List.countP_append]
      rw [ih (fun x hx => h x (List.mem_cons_of_mem t hx))]
      simp

/-- A `tune` call never evaluates line 51: its trace has no enumeration. -/
lemma tune_no_enum (config : Config) (viennacl_root : String) (p : OpSection)
    (operation : String) (nT nD : Nat) (draw : Except PyErr Unit)
    (add : List String) :
    (tune config viennacl_root p operation nT nD draw add).1.countP
      is_enumeration = 0 := by
  rcases tune_trace_shape config viennacl_root p operation nT nD draw add with
    ⟨e, heq⟩ | ⟨hs, ⟨sizes, heq⟩ | ⟨sizes, root, heq⟩⟩ | ⟨hs, heq⟩ <;>
    rw [heq] <;> simp [is_enumeration]

/-- A layout loop whose body never enumerates never enumerates. -/
lemma layout_loop_no_enum (f : String → Trace)
    (hf : ∀ l, (f l).1.countP is_enumeration = 0) (ls : List String) :
    (layout_loop f ls).1.countP is_enumeration = 0 := by
  induction ls with
  | nil => simp [layout_loop]
  | cons l ls ih =>
      cases hfl : (f l).2 with
      | some e => simp [layout_loop, hfl, hf l]
      | none => simp [layout_loop, hfl, List.countP_append, hf l, ih]

/-- The per-combination operation body never evaluates line 51. -/
lemma tuning_body_no_enum (config : Config) (viennacl_root : String)
    (p : OpSection) (operation : String) :
    (tuning_body config viennacl_root p operation).1.countP is_enumeration = 0 := by
  unfold tuning_body
  repeat' split
  all_goals
    first
      | (apply layout_loop_no_enum
         intro l
         first
           | (unfold mp_pass
              repeat' split
              all_goals
                simp [List.countP_cons, List.countP_nil, is_enumeration, tune_no_enum])
           | simp [rwr_pass, List.countP_cons, is_enumeration, tune_no_enum])
      | simp [List.countP_cons, List.countP_nil, is_enumeration, tune_no_enum]

/-- A combination pass (skip or body) never evaluates line 51. -/
lemma combination_pass_no_enum (config : Config) (viennacl_root : String)
    (p : OpSection) (operation : String) (dt : Precision) (device : Device) :
    (combination_pass config viennacl_root p operation dt device).1.countP
      is_enumeration = 0 := by
  unfold combination_pass
  split
  · simp [is_enumeration]
  · exact tuning_body_no_enum config viennacl_root p operation

/-- A completed operation block enumerates exactly once when its section is
configured, and not at all otherwise. -/
lemma operation_block_enum_count (all_devices : List Device) (config : Config)
    (viennacl_root : String) (operation : String)
    (h : (operation_block all_devices config viennacl_root operation).2 = none) :
    (operation_block all_devices config viennacl_root operation).1.countP
        is_enumeration =
      if config.sections.any (fun kv => kv.1 == operation) then 1 else 0 := by
  cases hf : config.sections.find? (fun kv => kv.1 == operation) with
  | none =>
      have hany : config.sections.any (fun kv => kv.1 == operation) = false := by
        rw [Bool.eq_false_iff]
        intro hc
        obtain ⟨kv, hmem, hbeq⟩ := List.any_eq_true.mp hc
        rw [List.find?_eq_none] at hf
        exact absurd hbeq (by simpa using hf kv hmem)
      simp [operation_block, hf, hany]
  | some kv =>
      have hany : config.sections.any (fun kv => kv.1 == operation) = true := by
        have hmem := List.mem_of_find?_eq_some hf
        have hp := List.find?_some hf
        exact List.any_eq_true.mpr ⟨kv, hmem, hp⟩
      rw [hany, if_pos rfl]
      cases hd : secGet kv.2 "devices" with
      | error e => simp [operation_block, hf, hd] at h
      | ok confdevices =>
          cases hr : resolveDevices confdevices all_devices with
          | error e => simp [operation_block, hf, hd, hr] at h
          | ok devices =>
              cases hpv : secGet kv.2 "precision" with
              | error e => simp [operation_block, hf, hd, hr, hpv] at h
              | ok pv =>
                  cases hps : resolvePrecisions pv with
                  | error e => simp [operation_block, hf, hd, hr, hpv, hps] at h
                  | ok datatypes =>
                      have hL : (traceSeq
                          ((datatypes.flatMap (fun dt => devices.map (fun d => (dt, d)))).map
                            (fun pr => combination_pass config viennacl_root kv.2
                              operation pr.1 pr.2))).2 = none := by
                        simpa [operation_block, hf, hd, hr, hpv, hps] using h
                      have hcnt := traceSeq_countP is_enumeration _ (traceSeq_snd_none _ hL)
                      simp only [operation_block, hf, hd, hr, hpv, hps]
                      simp only [List.countP_cons, is_enumeration]
                      rw [hcnt, List.map_map]
                      have hz : ∀ x ∈ ((datatypes.flatMap
                            (fun dt => devices.map (fun d => (dt, d)))).map
                          ((fun t => List.countP is_enumeration t.1) ∘ fun pr =>
                            combination_pass config viennacl_root kv.2 operation
                              pr.1 pr.2)), x = 0 := by
                        intro x hx
                        obtain ⟨pr, hpr, hxv⟩ := List.mem_map.mp hx
                        rw [← hxv]
                        exact combination_pass_no_enum config viennacl_root kv.2
                          operation pr.1 pr.2
                      rw [List.sum_eq_zero hz]
                      simp

/-- Enumeration count of a run restricted to an operation list. -/
lemma do_tuning_enum_count_aux (all_devices : List Device) (config : Config)
    (viennacl_root : String) (ops : List String)
    (h : (traceSeq (ops.map (operation_block all_devices config viennacl_root))).2 =
      none) :
    (traceSeq (ops.map (operation_block all_devices config viennacl_root))).1.countP
        is_enumeration =
      (ops.filter (fun op => config.sections.any (fun kv => kv.1 == op))).length := by
  induction ops with
  | nil => simp [traceSeq]
  | cons op ops ih =>
      rw [List.map_cons] at h ⊢
      have hop : (operation_block all_devices config viennacl_root op).2 = none :=
        traceSeq_snd_none _ h _ (by simp)
      rw [traceSeq_cons_none _ _ hop] at h ⊢
      rw [List.countP_append, ih h,
        operation_block_enum_count all_devices config viennacl_root op hop,
        List.filter_cons]
      cases hq : config.sections.any (fun kv => kv.1 == op) <;>
        simp [hq, Nat.add_comm]

/-- C5 counterexample: a run whose config holds two operation sections
evaluates the platform/device enumeration of line 51 twice — once per
configured operation — not once per run. -/
theorem device_enumeration_runs_per_operation :
    count_enumerations (do_tuning [demo_gpu] cfg_two_ops "").1 = 2 ∧
    count_enumerations (do_tuning [demo_gpu] cfg_two_ops "").1 ≠ 1 := by
  exact ⟨rfl, by decide⟩

/-- C5 (amended): in each completed run the enumeration of line 51 is
evaluated exactly once per configured operation section (so exactly once
when one operation is configured), and never inside the per-combination
passes — the enumerated list is reused across all (precision, device)
pairs of that operation. -/
theorem device_enumeration_once_per_configured_operation
    (all_devices : List Device) (config : Config) (viennacl_root : String)
    (h : (do_tuning all_devices config viennacl_root).2 = none) :
    count_enumerations (do_tuning all_devices config viennacl_root).1 =
      (OPERATIONS.filter
        (fun op => config.sections.any (fun kv => kv.1 == op))).length := by
  unfold count_enumerations do_tuning
  exact do_tuning_enum_count_aux all_devices config viennacl_root OPERATIONS h

/-- Witness for C5 (amended): a single-operation config enumerates once. -/
theorem device_enumeration_once_witness :
    count_enumerations (do_tuning [demo_gpu] cfg_single_point "").1 = 1 :=
  (device_enumeration_once_per_configured_operation [demo_gpu]
    cfg_single_point "" rfl).trans rfl

/-! ### C7 — `layout = all` for matrix-product -/

/-- A completed `tune` call constructs no handler and yields exactly one
tuning outcome, attributed to its additional parameters. -/
lemma tune_handled_and_outcomes (config : Config) (viennacl_root : String)
    (p : OpSection) (operation : String) (nT nD : Nat)
    (draw : Except PyErr Unit) (add : List String)
    (h : (tune config viennacl_root p operation nT nD draw add).2 = none) :
    handled_layouts (tune config viennacl_root p operation nT nD draw add).1 = [] ∧
    (tune config viennacl_root p operation nT nD draw add).1.filterMap
      outcome_additional = [add] := by
  rcases tune_trace_shape config viennacl_root p operation nT nD draw add with
    ⟨e, heq⟩ | ⟨hs, ⟨sizes, heq⟩ | ⟨sizes, root, heq⟩⟩ | ⟨hs, heq⟩
  · rw [heq] at h
    simp at h
  · rw [heq]
    simp [handled_layouts, outcome_additional]
  · rw [heq]
    simp [handled_layouts, outcome_additional]
  · rw [heq]
    simp [handled_layouts, outcome_additional]

/-- Prepending one handler-construction event to a handler-free trace. -/
lemma construct_cons_summary (operation code : String) (evs : List Event)
    (adds : List (List String))
    (h1 : handled_layouts evs = [])
    (h2 : evs.filterMap outcome_additional = adds) :
    handled_layouts (Event.construct_handler operation code :: evs) = [code] ∧
    (Event.construct_handler operation code :: evs).filterMap
      outcome_additional = adds := by
  constructor
  · unfold handled_layouts at h1 ⊢
    simp [List.filterMap_cons, h1]
  · simp [List.filterMap_cons, outcome_additional, h2]

/-- A completed layout loop whose body builds one handler and one outcome
per code builds exactly the given code list, in order. -/
lemma layout_loop_summary (f : String → Trace) (codes : List String)
    (hf : ∀ code ∈ codes, (f code).2 = none →
        handled_layouts (f code).1 = [code] ∧
        (f code).1.filterMap outcome_additional = [layout_chars code])
    (hok : (layout_loop f codes).2 = none) :
    handled_layouts (layout_loop f codes).1 = codes ∧
    (layout_loop f codes).1.filterMap outcome_additional =
      codes.map layout_chars := by
  revert hf hok
  induction codes with
  | nil =>
      intro hf hok
      simp [layout_loop, handled_layouts]
  | cons c cs ih =>
      intro hf hok
      cases hfc : (f c).2 with
      | some e =>
          have hsome : (layout_loop f (c :: cs)).2 = some e := by
            simp [layout_loop, hfc]
          rw [hsome] at hok
          simp at hok
      | none =>
          have hstep : layout_loop f (c :: cs) =
              ((f c).1 ++ (layout_loop f cs).1, (layout_loop f cs).2) := by
            simp [layout_loop, hfc]
          rw [hstep] at hok ⊢
          have hc := hf c (by simp) hfc
          have ihh := ih (fun x hx hnx => hf x (List.mem_cons_of_mem c hx) hnx) hok
          constructor
          · unfold handled_layouts at hc ihh ⊢
            rw [List.filterMap_append, hc.1, ihh.1]
            rfl
          · rw [List.filterMap_append, hc.2, ihh.2]
            rfl

/-- C7: whenever a matrix-product section's `layout` value contains `all`
and the pass completes, the layout list expands to exactly the four codes
NN, NT, TN, TT, and the pass trace constructs exactly one execution
handler per code and runs exactly one tuning pass per code (attributed by
the `(layout[0], layout[1])` parameters), each exactly once, in order. -/
theorem layout_all_expands_to_four_codes (config : Config)
    (viennacl_root : String) (p : OpSection) (lv : ConfVal)
    (hlv : secGet p "layout" = .ok lv)
    (hall : (map_to_list_str lv).contains "all" = true)
    (hok : (tuning_body config viennacl_root p "matrix-product").2 = none) :
    mp_layouts lv = ["NN", "NT", "TN", "TT"] ∧
    handled_layouts (tuning_body config viennacl_root p "matrix-product").1 =
      ["NN", "NT", "TN", "TT"] ∧
    (tuning_body config viennacl_root p "matrix-product").1.filterMap
        outcome_additional =
      [["N", "N"], ["N", "T"], ["T", "N"], ["T", "T"]] := by
  have hmp : mp_layouts lv = ["NN", "NT", "TN", "TT"] := by
    show (if (map_to_list_str lv).contains "all" then ["NN", "NT", "TN", "TT"]
      else map_to_list_str lv) = ["NN", "NT", "TN", "TT"]
    rw [hall]
    rfl
  have hbody : tuning_body config viennacl_root p "matrix-product" =
      layout_loop (mp_pass config viennacl_root p) (mp_layouts lv) := by
    show (match secGet p "layout" with
      | .error e => (([] : List Event), some e)
      | .ok lv => layout_loop (mp_pass config viennacl_root p) (mp_layouts lv)) =
      layout_loop (mp_pass config viennacl_root p) (mp_layouts lv)
    rw [hlv]
  rw [hbody, hmp] at hok ⊢
  have hf : ∀ code ∈ (["NN", "NT", "TN", "TT"] : List String),
      (mp_pass config viennacl_root p code).2 = none →
      handled_layouts (mp_pass config viennacl_root p code).1 = [code] ∧
      (mp_pass config viennacl_root p code).1.filterMap outcome_additional =
        [layout_chars code] := by
    intro code hcode hnone
    have hmem : code = "NN" ∨ code = "NT" ∨ code = "TN" ∨ code = "TT" := by
      simpa using hcode
    rcases hmem with rfl | rfl | rfl | rfl
    · have hn : (tune config viennacl_root p "matrix-product" 50 2000 invoke_draw
          ["N", "N"]).2 = none := hnone
      have ht := tune_handled_and_outcomes config viennacl_root p
        "matrix-product" 50 2000 invoke_draw ["N", "N"] hn
      exact construct_cons_summary "matrix-product" "NN" _ _ ht.1 ht.2
    · have hn : (tune config viennacl_root p "matrix-product" 50 2000 invoke_draw
          ["N", "T"]).2 = none := hnone
      have ht := tune_handled_and_outcomes config viennacl_root p
        "matrix-product" 50 2000 invoke_draw ["N", "T"] hn
      exact construct_cons_summary "matrix-product" "NT" _ _ ht.1 ht.2
    · have hn : (tune config viennacl_root p "matrix-product" 50 2000 invoke_draw
          ["T", "N"]).2 = none := hnone
      have ht := tune_handled_and_outcomes config viennacl_root p
        "matrix-product" 50 2000 invoke_draw ["T", "N"] hn
      exact construct_cons_summary "matrix-product" "TN" _ _ ht.1 ht.2
    · have hn : (tune config viennacl_root p "matrix-product" 50 2000 invoke_draw
          ["T", "T"]).2 = none := hnone
      have ht := tune_handled_and_outcomes config viennacl_root p
        "matrix-product" 50 2000 invoke_draw ["T", "T"] hn
      exact construct_cons_summary "matrix-product" "TT" _ _ ht.1 ht.2
  have hsum := layout_loop_summary (mp_pass config viennacl_root p)
    ["NN", "NT", "TN", "TT"] hf hok
  exact ⟨rfl, hsum.1, hsum.2.trans (by rfl)⟩

/-- Witness for C7 at a concrete `layout = all` matrix-product section. -/
theorem layout_all_expands_to_four_codes_witness :
    mp_layouts (.str "all") = ["NN", "NT", "TN", "TT"] ∧
    handled_layouts (tuning_body cfg_mp_all "" sec_mp_all "matrix-product").1 =
      ["NN", "NT", "TN", "TT"] ∧
    (tuning_body cfg_mp_all "" sec_mp_all "matrix-product").1.filterMap
        outcome_additional =
      [["N", "N"], ["N", "T"], ["T", "N"], ["T", "T"]] :=
  layout_all_expands_to_four_codes cfg_mp_all "" sec_mp_all (.str "all")
    rfl rfl rfl

end Autotune
